import Mathlib

/-!
# Ledger: script gateway and storage driver

A shallow embedding of

* `pkg/api/controllers/script_controller.go` (`ScriptController.PostScript`), and
* `pkg/storage/sqlstorage/driver.go` (`Driver.Register`, `Driver.exists`,
  `Driver.DeleteStore`, `Driver.GetStore`),

followed by the properties proved about them.

Go `error` values are identified by their text. Stateful code is written in
explicit state-passing style over a `Backend` value.
-/

namespace Ledger

/-! ## Part 1: the script gateway -/

/-- The engine's script error, `*ledger.ScriptError`: the handler reads its
fields `Code` and `Message`. -/
structure ScriptError where
  Code : String
  Message : String
  deriving DecidableEq, Repr

/-- Modelled from the spec: the type `ledger.ConflictError` and its method `Error()`
are declared elsewhere in the repository; the spec says a conflict error carries a
human message, which is what `Error()` returns. -/
structure ConflictError where
  text : String
  deriving DecidableEq, Repr

/-- The textual description of a conflict error, `e.Error()`. -/
def ConflictError.Error (e : ConflictError) : String := e.text

/-- The non-nil `error` values `ExecuteScript` can return, by dynamic type, as
the type switch of `PostScript` distinguishes them. -/
inductive EngineError where
  | scriptError (e : ScriptError)
  | conflictError (e : ConflictError)
  | other (text : String)
  deriving DecidableEq, Repr

/-- The package `apierrors`, declared elsewhere in the repository: the two error
codes and the function `EncodeLink` that the handler uses are parameters. -/
structure Apierrors where
  ErrInternal : String
  ErrConflict : String
  EncodeLink : String → String

/-- The error part of the response, `api.ErrorResponse`; every field is a Go
string, whose zero value is `""`. -/
structure ErrorResponse where
  ErrorCode : String
  ErrorMessage : String
  Details : String
  ErrorCodeDeprecated : String
  ErrorMessageDeprecated : String
  deriving DecidableEq, Repr

/-- The zero value `api.ErrorResponse{}`. -/
def ErrorResponse.zero : ErrorResponse := ⟨"", "", "", "", ""⟩

/-- The handler's `ScriptResponse`: the embedded error response and the
transaction, which always points at the engine's `execRes`. -/
structure ScriptResponse (Tx : Type) where
  toErrorResponse : ErrorResponse
  Transaction : Tx

/-- The constant `http.StatusOK`. -/
def StatusOK : Nat := 200

/-- Go's `unicode.ToUpper` on one rune. For `'a'..'z'` it subtracts
`'a' - 'A'`. Outside ASCII Go consults its case tables; the only runes that the
tables send into ASCII are U+017F (long s, to `S`) and U+0131 (dotless i, to
`I`), and these are kept. Every other rune is left as it is: Go maps those to
non-ASCII runes, so they never compare equal to an ASCII letter either way. -/
def unicodeToUpper (r : Char) : Char :=
  if 97 ≤ r.toNat ∧ r.toNat ≤ 122 then Char.ofNat (r.toNat - 32)
  else if r.toNat = 0x17F then 'S'
  else if r.toNat = 0x131 then 'I'
  else r

/-- Go's `strings.ToUpper`: every rune mapped by `unicode.ToUpper`. -/
def ToUpper (s : String) : String := String.mk (s.data.map unicodeToUpper)

/-- Lines 34-35 of `PostScript`: `query` is the result of `c.GetQuery("preview")`,
`none` when the parameter is absent (`ok = false`). -/
def preview (query : Option String) : Bool :=
  match query with
  | none => false
  | some value => ToUpper value == "YES" || ToUpper value == "TRUE" || value == "1"

/-- Lines 39-64 of `PostScript`: the error response built from a non-nil engine
error. -/
def errorResponse (ae : Apierrors) (err : EngineError) : ErrorResponse :=
  let cm : String × String :=
    match err with
    | .scriptError e => (e.Code, e.Message)
    | .conflictError e => (ae.ErrConflict, e.Error)
    | .other _ => (ae.ErrInternal, "")
  let code := cm.1
  let message := cm.2
  let res : ErrorResponse :=
    { ErrorCode := code
      ErrorMessage := message
      Details := ""
      ErrorCodeDeprecated := code
      ErrorMessageDeprecated := message }
  if message ≠ "" then { res with Details := ae.EncodeLink message } else res

/-- The response body built from the engine's result `(execRes, err)`. -/
def respond {Tx : Type} (ae : Apierrors) (r : Tx × Option EngineError) : ScriptResponse Tx :=
  match r.2 with
  | none => { toErrorResponse := ErrorResponse.zero, Transaction := r.1 }
  | some err => { toErrorResponse := errorResponse ae err, Transaction := r.1 }

/-- The handler `ScriptController.PostScript`. `body` is the outcome of
`c.ShouldBindJSON(&script)`: `none` when binding fails, in which case the handler
panics and writes no response (`none`). `ExecuteScript` is the engine method of the
ledger found under the key `"ledger"`. The result is the pair written by
`c.JSON`: status and body. -/
def PostScript {Script Tx : Type} (ae : Apierrors)
    (ExecuteScript : Bool → Script → Tx × Option EngineError)
    (query : Option String) (body : Option Script) : Option (Nat × ScriptResponse Tx) :=
  match body with
  | none => none
  | some script => some (StatusOK, respond ae (ExecuteScript (preview query) script))

/-- Case-insensitive comparison as the spec words it, on one rune: simple case
folding towards lower case. `'A'..'Z'` fold to `'a'..'z'`, U+017F (long s) folds
to `s` and U+212A (Kelvin sign) folds to `k`; these are all the runes whose fold
is an ASCII letter. -/
def foldRune (r : Char) : Char :=
  if 65 ≤ r.toNat ∧ r.toNat ≤ 90 then Char.ofNat (r.toNat + 32)
  else if r.toNat = 0x17F then 's'
  else if r.toNat = 0x212A then 'k'
  else r

/-- Two strings are equal case-insensitively when they fold to the same runes. -/
def EqualFold (s t : String) : Prop := s.data.map foldRune = t.data.map foldRune

instance (s t : String) : Decidable (EqualFold s t) := by
  unfold EqualFold; infer_instance

/-- The truthy values of the `preview` parameter, in the spec's words. -/
def truthy (value : String) : Prop :=
  EqualFold value "yes" ∨ EqualFold value "true" ∨ value = "1"

instance (value : String) : Decidable (truthy value) := by
  unfold truthy; infer_instance


/-! ## Part 2: the storage driver -/

/-- A Go `error` value, identified by its text. -/
abbrev Error := String

/-- The constant `SystemSchema`. -/
def SystemSchema : String := "_system"

/-- The calls the driver makes on the backend: on the `DB` handle, on a tenant
`Schema` handle, and the three statements it sends to the system schema. -/
inductive BackendCall where
  /-- The call `s.db.Schema(ctx, name)`. -/
  | dbSchema (name : String)
  /-- The call `schema.Initialize(ctx)` on the handle of partition `name`. -/
  | schemaInitialize (name : String)
  /-- The call `schema.Delete(ctx)` on the handle of partition `name`. -/
  | schemaDelete (name : String)
  /-- The query `SELECT ledger FROM ledgers WHERE ledger = ?`. -/
  | selectLedger (ledger : String)
  /-- The statement `INSERT INTO ledgers (ledger, addedAt) VALUES (?, ?) ON CONFLICT DO NOTHING`. -/
  | insertLedger (ledger : String)
  /-- The statement `DELETE FROM ledgers WHERE ledger = ?`. -/
  | deleteLedger (ledger : String)
  deriving DecidableEq, Repr

/-- The state behind a `Driver`: the rows of the catalog table `ledgers` of the
system schema (column `ledger`, the primary key; `addedAt` is written once and
read by no operation, and is left out), the tenant partitions that exist, and
the log of the backend calls made so far, oldest first. -/
structure Backend where
  ledgers : List String
  partitions : List String
  calls : List BackendCall
  deriving DecidableEq, Repr

/-- Which steps of one driver operation fail, and with which error. Every step
runs at most once in one operation. -/
structure Faults where
  selectLedger : Option Error
  dbSchema : Option Error
  insertLedger : Option Error
  rowsAffected : Option Error
  schemaInitialize : Option Error
  newStore : Option Error
  schemaDelete : Option Error
  deleteLedger : Option Error
  deriving DecidableEq, Repr

/-- A backend on which every step succeeds. -/
def noFaults : Faults := ⟨none, none, none, none, none, none, none, none⟩

/-- A handle on the partition `name`, as returned by `db.Schema`. -/
structure Schema where
  name : String
  deriving DecidableEq, Repr

/-- The store handed to the engine, bound to one partition. -/
structure Store where
  schema : Schema
  deriving DecidableEq, Repr

/-- The `*sql.Row` of `database/sql`: the error met while running the query, and
the rows it matched. -/
structure Row where
  err : Option Error
  rows : List String
  deriving DecidableEq, Repr

/-- The method `Row.Err` of `database/sql`: the error met while running the
query, if any. A query that matches no row is not such an error:
`sql.ErrNoRows` is produced by `Row.Scan` only. -/
def Row.Err (r : Row) : Option Error := r.err

/-- The `sql.Result` of a statement: its `RowsAffected()` outcome. -/
structure Result where
  RowsAffected : Except Error Nat

/-- Append a call to the log. -/
def Backend.log (s : Backend) (c : BackendCall) : Backend :=
  { s with calls := s.calls ++ [c] }

/-- Modelled from the spec: the interface `DB` and its implementations are declared
elsewhere in the repository. `schema(ctx, name) → SchemaHandle` hands out a handle
on the partition `name`, or fails. -/
def DB.Schema (f : Faults) (name : String) (s : Backend) : Except Error Schema × Backend :=
  match f.dbSchema with
  | some err => (.error err, s.log (.dbSchema name))
  | none => (.ok ⟨name⟩, s.log (.dbSchema name))

/-- Modelled from the spec: the interface `Schema` and its implementations are
declared elsewhere in the repository. `initialize(ctx)` is create-if-missing. -/
def Schema.Initialize (f : Faults) (schema : Schema) (s : Backend) : Option Error × Backend :=
  match f.schemaInitialize with
  | some err => (some err, s.log (.schemaInitialize schema.name))
  | none =>
    (none, { (s.log (.schemaInitialize schema.name)) with
      partitions := if schema.name ∈ s.partitions then s.partitions
                    else s.partitions ++ [schema.name] })

/-- Modelled from the spec: the interface `Schema` and its implementations are
declared elsewhere in the repository. `delete(ctx)` removes the physical partition. -/
def Schema.Delete (f : Faults) (schema : Schema) (s : Backend) : Option Error × Backend :=
  match f.schemaDelete with
  | some err => (some err, s.log (.schemaDelete schema.name))
  | none =>
    (none, { (s.log (.schemaDelete schema.name)) with
      partitions := s.partitions.filter (fun p => p ≠ schema.name) })

/-- Modelled from the spec: the query method of the interface `Schema`, declared
elsewhere in the repository, run on the statement built by `Driver.exists`:
`SELECT ledger FROM ledgers WHERE ledger = ?`. -/
def QueryRowContext (f : Faults) (ledger : String) (s : Backend) : Row × Backend :=
  match f.selectLedger with
  | some err => (⟨some err, []⟩, s.log (.selectLedger ledger))
  | none => (⟨none, s.ledgers.filter (fun l => l = ledger)⟩, s.log (.selectLedger ledger))

/-- Modelled from the spec: the statement method of the interface `Schema`, declared
elsewhere in the repository, run on the statement built by `Driver.Register`:
`INSERT INTO ledgers ... ON CONFLICT DO NOTHING`, which inserts the row unless the
key is present and reports the number of rows inserted. -/
def ExecContextInsert (f : Faults) (ledger : String) (s : Backend) :
    Except Error Result × Backend :=
  match f.insertLedger with
  | some err => (.error err, s.log (.insertLedger ledger))
  | none =>
    let affected : Nat := if ledger ∈ s.ledgers then 0 else 1
    let ret : Result :=
      match f.rowsAffected with
      | some err => ⟨.error err⟩
      | none => ⟨.ok affected⟩
    (.ok ret, { (s.log (.insertLedger ledger)) with
      ledgers := if ledger ∈ s.ledgers then s.ledgers else s.ledgers ++ [ledger] })

/-- Modelled from the spec: the statement method of the interface `Schema`, declared
elsewhere in the repository, run on the statement built by `Driver.DeleteStore`:
`DELETE FROM ledgers WHERE ledger = ?`. -/
def ExecContextDelete (f : Faults) (ledger : String) (s : Backend) :
    Except Error Result × Backend :=
  match f.deleteLedger with
  | some err => (.error err, s.log (.deleteLedger ledger))
  | none =>
    let affected : Nat := (s.ledgers.filter (fun l => l = ledger)).length
    let ret : Result :=
      match f.rowsAffected with
      | some err => ⟨.error err⟩
      | none => ⟨.ok affected⟩
    (.ok ret, { (s.log (.deleteLedger ledger)) with
      ledgers := s.ledgers.filter (fun l => l ≠ ledger) })

/-- Modelled from the spec: the constructor `NewStore` is declared elsewhere
in the repository. `newStore(schemaHandle, onClose) → StoreHandle` binds a store to the
handle, or fails; it makes no backend call. -/
def NewStore (f : Faults) (schema : Schema) : Except Error Store :=
  match f.newStore with
  | some err => .error err
  | none => .ok ⟨schema⟩

/-- The method `Driver.Register`. -/
def Driver.Register (f : Faults) (ledger : String) (s : Backend) : Except Error Bool × Backend :=
  match ExecContextInsert f ledger s with
  | (.error err, s1) => (.error err, s1)
  | (.ok ret, s1) =>
    match ret.RowsAffected with
    | .error err => (.error err, s1)
    | .ok affected => (.ok (decide (affected > 0)), s1)

/-- The method `Driver.exists`: it looks at `ret.Err()` only. -/
def Driver.exists (f : Faults) (ledger : String) (s : Backend) : Except Error Bool × Backend :=
  match QueryRowContext f ledger s with
  | (ret, s1) => if ret.Err ≠ none then (.ok false, s1) else (.ok true, s1)

/-- The method `Driver.DeleteStore`; `none` is the `nil` error. -/
def Driver.DeleteStore (f : Faults) (name : String) (s : Backend) : Option Error × Backend :=
  if SystemSchema = name then (some "cannot delete system schema", s)
  else
    match DB.Schema f name s with
    | (.error err, s1) => (some err, s1)
    | (.ok schema, s1) =>
      match schema.Delete f s1 with
      | (some err, s2) => (some err, s2)
      | (none, s2) =>
        match ExecContextDelete f name s2 with
        | (.error err, s3) => (some err, s3)
        | (.ok _, s3) => (none, s3)

/-- The method `Driver.GetStore`; on success it returns the store and the
`created` flag of `Register`. -/
def Driver.GetStore (f : Faults) (name : String) (create : Bool) (s : Backend) :
    Except Error (Store × Bool) × Backend :=
  if name = SystemSchema then (.error "reserved name", s)
  else
    match Driver.exists f name s with
    | (.error err, s1) => (.error err, s1)
    | (.ok «exists», s1) =>
      if !«exists» && !create then (.error "not exists", s1)
      else
        match DB.Schema f name s1 with
        | (.error err, s2) => (.error err, s2)
        | (.ok schema, s2) =>
          match Driver.Register f name s2 with
          | (.error err, s3) => (.error err, s3)
          | (.ok created, s3) =>
            match schema.Initialize f s3 with
            | (some err, s4) => (.error err, s4)
            | (none, s4) =>
              match NewStore f schema with
              | .error err => (.error err, s4)
              | .ok store => (.ok (store, created), s4)

/-- The backend right after `Driver.Initialize`: empty catalog, no partition. -/
def Backend.empty : Backend := ⟨[], [], []⟩

/-! ## Definitions used in the statements -/

/-- The pairs (upper-case letter, its lower-case form) for which upper-casing and
folding agree: every ASCII letter but `I` (dotless i upper-cases to it without
folding to `i`) and `K` (the Kelvin sign folds to `k` without upper-casing to it). -/
def CasePair (u l : Char) : Prop :=
  65 ≤ u.toNat ∧ u.toNat ≤ 90 ∧ l.toNat = u.toNat + 32 ∧ u.toNat ≠ 73 ∧ u.toNat ≠ 75

/-- The preview flag as the spec words it: the parameter is present and its value
is truthy. -/
def specPreview (query : Option String) : Bool :=
  match query with
  | none => false
  | some value => decide (truthy value)

/-- A concrete `apierrors` package for the closed statements: two codes and a link
function that prefixes the message. -/
def sampleApierrors : Apierrors :=
  { ErrInternal := "INTERNAL"
    ErrConflict := "CONFLICT"
    EncodeLink := fun m => "link:" ++ m }

/-! ## Proofs, part 1 -/

/-- A rune is determined by its code point. -/
theorem char_eq_iff_toNat (c d : Char) : c = d ↔ c.toNat = d.toNat := by
  constructor
  · intro h; rw [h]
  · intro h
    rw [← Char.ofNat_toNat c, ← Char.ofNat_toNat d, h]

theorem toNat_ofNat_small (m : Nat) (h : m < 128) : (Char.ofNat m).toNat = m := by
  interval_cases m <;> rfl

theorem toNat_unicodeToUpper (c : Char) :
    (unicodeToUpper c).toNat =
      if 97 ≤ c.toNat ∧ c.toNat ≤ 122 then c.toNat - 32
      else if c.toNat = 0x17F then 83 else if c.toNat = 0x131 then 73 else c.toNat := by
  unfold unicodeToUpper
  split_ifs with h1 h2 h3
  · exact toNat_ofNat_small _ (by omega)
  · rfl
  · rfl
  · rfl

theorem toNat_foldRune (c : Char) :
    (foldRune c).toNat =
      if 65 ≤ c.toNat ∧ c.toNat ≤ 90 then c.toNat + 32
      else if c.toNat = 0x17F then 115 else if c.toNat = 0x212A then 107 else c.toNat := by
  unfold foldRune
  split_ifs with h1 h2 h3
  · exact toNat_ofNat_small _ (by omega)
  · rfl
  · rfl
  · rfl

theorem upper_iff_fold (c u l : Char) (h : CasePair u l) :
    unicodeToUpper c = u ↔ foldRune c = l := by
  obtain ⟨h1, h2, hl, hI, hK⟩ := h
  rw [char_eq_iff_toNat, char_eq_iff_toNat (foldRune c), toNat_unicodeToUpper,
    toNat_foldRune, hl]
  split_ifs <;> omega

theorem map_upper_iff_fold (U L : List Char) (h : List.Forall₂ CasePair U L) (v : List Char) :
    v.map unicodeToUpper = U ↔ v.map foldRune = L := by
  induction h generalizing v with
  | nil => simp
  | cons hul _ ih =>
    cases v with
    | nil => simp
    | cons c cs =>
      simp only [List.map_cons, List.cons.injEq]
      rw [upper_iff_fold c _ _ hul, ih cs]

theorem ToUpper_eq_iff (v U : String) : ToUpper v = U ↔ v.data.map unicodeToUpper = U.data := by
  unfold ToUpper
  constructor
  · intro h; rw [← h]
  · intro h; exact String.ext h

theorem ToUpper_YES_iff (v : String) : ToUpper v = "YES" ↔ EqualFold v "yes" := by
  rw [ToUpper_eq_iff]
  unfold EqualFold
  have hp : List.Forall₂ CasePair "YES".data "yes".data := by
    repeat first | exact List.Forall₂.nil | apply List.Forall₂.cons | (unfold CasePair; decide)
  have hf : "yes".data.map foldRune = "yes".data := by decide
  rw [hf]
  exact map_upper_iff_fold _ _ hp v.data

theorem ToUpper_TRUE_iff (v : String) : ToUpper v = "TRUE" ↔ EqualFold v "true" := by
  rw [ToUpper_eq_iff]
  unfold EqualFold
  have hp : List.Forall₂ CasePair "TRUE".data "true".data := by
    repeat first | exact List.Forall₂.nil | apply List.Forall₂.cons | (unfold CasePair; decide)
  have hf : "true".data.map foldRune = "true".data := by decide
  rw [hf]
  exact map_upper_iff_fold _ _ hp v.data

theorem preview_some_iff (value : String) : preview (some value) = true ↔ truthy value := by
  unfold preview truthy
  simp only [Bool.or_eq_true, beq_iff_eq, ToUpper_YES_iff, ToUpper_TRUE_iff, or_assoc]

theorem preview_eq_specPreview (query : Option String) : preview query = specPreview query := by
  cases query with
  | none => rfl
  | some value =>
    have h := preview_some_iff value
    unfold specPreview
    cases hp : preview (some value) with
    | true => exact (decide_eq_true (h.mp hp)).symm
    | false =>
      have hn : ¬ truthy value := fun ht => by
        rw [h.mpr ht] at hp; exact Bool.noConfusion hp
      exact (decide_eq_false hn).symm

theorem PostScript_some {Script Tx : Type} (ae : Apierrors)
    (ExecuteScript : Bool → Script → Tx × Option EngineError)
    (query : Option String) (script : Script) :
    PostScript ae ExecuteScript query (some script) =
      some (StatusOK, respond ae (ExecuteScript (preview query) script)) := rfl

/-- Claim C1, as amended: when the engine returns a script error whose code and
message are both non-empty, the response has a non-empty errorCode, a non-empty
errorMessage, and details equal to EncodeLink of that message. -/
theorem PostScript_scriptError_details {Script Tx : Type} (ae : Apierrors)
    (ExecuteScript : Bool → Script → Tx × Option EngineError)
    (query : Option String) (script : Script) (tx : Tx) (e : ScriptError)
    (hres : ExecuteScript (preview query) script = (tx, some (.scriptError e)))
    (hcode : e.Code ≠ "") (hmsg : e.Message ≠ "") :
    ∃ r : ScriptResponse Tx,
      PostScript ae ExecuteScript query (some script) = some (StatusOK, r) ∧
      r.toErrorResponse.ErrorCode ≠ "" ∧
      r.toErrorResponse.ErrorMessage ≠ "" ∧
      r.toErrorResponse.Details = ae.EncodeLink e.Message := by
  refine ⟨_, PostScript_some ae ExecuteScript query script, ?_⟩
  rw [hres]
  simp only [respond, errorResponse, if_pos hmsg]
  exact ⟨hcode, hmsg, trivial⟩

theorem PostScript_scriptError_details_witness :
    ∃ r : ScriptResponse Unit,
      PostScript sampleApierrors
          (fun _ _ => ((), some (.scriptError ⟨"NO_SCRIPT", "no script to execute"⟩)))
          (some "1") (some ()) = some (StatusOK, r) ∧
      r.toErrorResponse.ErrorCode ≠ "" ∧
      r.toErrorResponse.ErrorMessage ≠ "" ∧
      r.toErrorResponse.Details = sampleApierrors.EncodeLink "no script to execute" :=
  PostScript_scriptError_details sampleApierrors
    (fun _ _ => ((), some (.scriptError ⟨"NO_SCRIPT", "no script to execute"⟩)))
    (some "1") () () ⟨"NO_SCRIPT", "no script to execute"⟩ rfl (by decide) (by decide)

/-- Claim C1 fails as stated: a script error with code `NO_SCRIPT` and an empty
message gives a response whose errorMessage is empty and whose details field is
not populated. -/
theorem PostScript_scriptError_empty_message :
    (PostScript sampleApierrors
        (fun _ _ => ((), some (.scriptError ⟨"NO_SCRIPT", ""⟩)))
        none (some ())).map (fun p => p.2.toErrorResponse) =
      some ⟨"NO_SCRIPT", "", "", "NO_SCRIPT", ""⟩ := by
  decide

/-- Claim C2: for an engine error that is neither a script error nor a conflict
error, the response has status 200, the internal-error code in errorCode and
errorCodeDeprecated, empty errorMessage and errorMessageDeprecated and no
details; the error fields do not depend on the error. -/
theorem PostScript_other_error {Script Tx : Type} (ae : Apierrors)
    (ExecuteScript : Bool → Script → Tx × Option EngineError)
    (query : Option String) (script : Script) (tx : Tx) (text : String)
    (hres : ExecuteScript (preview query) script = (tx, some (.other text))) :
    PostScript ae ExecuteScript query (some script) =
        some (200, ⟨⟨ae.ErrInternal, "", "", ae.ErrInternal, ""⟩, tx⟩) ∧
      ∀ text2 : String, errorResponse ae (.other text) = errorResponse ae (.other text2) := by
  constructor
  · rw [PostScript_some, hres]
    simp [respond, errorResponse, StatusOK]
  · intro text2
    rfl

theorem PostScript_other_error_witness :
    PostScript sampleApierrors
        (fun _ _ => ((), some (.other "pq: connection refused")))
        none (some ()) =
        some (200, ⟨⟨sampleApierrors.ErrInternal, "", "", sampleApierrors.ErrInternal, ""⟩, ()⟩) ∧
      ∀ text2 : String,
        errorResponse sampleApierrors (.other "pq: connection refused") =
          errorResponse sampleApierrors (.other text2) :=
  PostScript_other_error sampleApierrors
    (fun _ _ => ((), some (.other "pq: connection refused"))) none () ()
    "pq: connection refused" rfl

/-- Claim C3: a script error gives errorCode and errorMessage equal to the
engine's code and message; a conflict error gives the conflict code and the text
of `e.Error()`; in both cases the deprecated fields repeat them. -/
theorem PostScript_script_conflict_fields {Script Tx : Type} (ae : Apierrors)
    (ExecuteScript : Bool → Script → Tx × Option EngineError)
    (query : Option String) (script : Script) (tx : Tx) :
    (∀ e : ScriptError,
      ExecuteScript (preview query) script = (tx, some (.scriptError e)) →
      ∃ r : ScriptResponse Tx,
        PostScript ae ExecuteScript query (some script) = some (StatusOK, r) ∧
        r.toErrorResponse.ErrorCode = e.Code ∧
        r.toErrorResponse.ErrorMessage = e.Message ∧
        r.toErrorResponse.ErrorCodeDeprecated = e.Code ∧
        r.toErrorResponse.ErrorMessageDeprecated = e.Message) ∧
    (∀ e : ConflictError,
      ExecuteScript (preview query) script = (tx, some (.conflictError e)) →
      ∃ r : ScriptResponse Tx,
        PostScript ae ExecuteScript query (some script) = some (StatusOK, r) ∧
        r.toErrorResponse.ErrorCode = ae.ErrConflict ∧
        r.toErrorResponse.ErrorMessage = e.Error ∧
        r.toErrorResponse.ErrorCodeDeprecated = ae.ErrConflict ∧
        r.toErrorResponse.ErrorMessageDeprecated = e.Error) := by
  constructor
  · intro e hres
    refine ⟨_, PostScript_some ae ExecuteScript query script, ?_⟩
    rw [hres]
    simp only [respond, errorResponse]
    split_ifs <;> exact ⟨rfl, rfl, rfl, rfl⟩
  · intro e hres
    refine ⟨_, PostScript_some ae ExecuteScript query script, ?_⟩
    rw [hres]
    simp only [respond, errorResponse]
    split_ifs <;> exact ⟨rfl, rfl, rfl, rfl⟩

theorem PostScript_script_conflict_fields_witness :
    (∃ r : ScriptResponse Unit,
        PostScript sampleApierrors
          (fun p _ => if p then ((), some (.scriptError ⟨"INSUFFICIENT_FUND", "balance too low"⟩))
                      else ((), some (.conflictError ⟨"conflict error on reference"⟩)))
          (some "yes") (some ()) = some (StatusOK, r) ∧
        r.toErrorResponse.ErrorCode = "INSUFFICIENT_FUND" ∧
        r.toErrorResponse.ErrorMessage = "balance too low" ∧
        r.toErrorResponse.ErrorCodeDeprecated = "INSUFFICIENT_FUND" ∧
        r.toErrorResponse.ErrorMessageDeprecated = "balance too low") ∧
    (∃ r : ScriptResponse Unit,
        PostScript sampleApierrors
          (fun p _ => if p then ((), some (.scriptError ⟨"INSUFFICIENT_FUND", "balance too low"⟩))
                      else ((), some (.conflictError ⟨"conflict error on reference"⟩)))
          (some "0") (some ()) = some (StatusOK, r) ∧
        r.toErrorResponse.ErrorCode = "CONFLICT" ∧
        r.toErrorResponse.ErrorMessage = "conflict error on reference" ∧
        r.toErrorResponse.ErrorCodeDeprecated = "CONFLICT" ∧
        r.toErrorResponse.ErrorMessageDeprecated = "conflict error on reference") :=
  ⟨(PostScript_script_conflict_fields sampleApierrors
      (fun p _ => if p then ((), some (.scriptError ⟨"INSUFFICIENT_FUND", "balance too low"⟩))
                  else ((), some (.conflictError ⟨"conflict error on reference"⟩)))
      (some "yes") () ()).1 ⟨"INSUFFICIENT_FUND", "balance too low"⟩ (by decide),
   (PostScript_script_conflict_fields sampleApierrors
      (fun p _ => if p then ((), some (.scriptError ⟨"INSUFFICIENT_FUND", "balance too low"⟩))
                  else ((), some (.conflictError ⟨"conflict error on reference"⟩)))
      (some "0") () ()).2 ⟨"conflict error on reference"⟩ (by decide)⟩

/-- Claim C4: the preview flag that PostScript passes to the engine is true exactly
when the `preview` parameter is present and its value is, ignoring case, "yes" or
"true", or is "1"; the value "0" and an absent parameter give false. -/
theorem PostScript_preview_flag (query : Option String) :
    (preview query = true ↔ ∃ value, query = some value ∧
        (EqualFold value "yes" ∨ EqualFold value "true" ∨ value = "1")) ∧
    (∀ (Script Tx : Type) (ae : Apierrors)
        (ExecuteScript : Bool → Script → Tx × Option EngineError) (script : Script),
      PostScript ae ExecuteScript query (some script) =
        some (StatusOK, respond ae (ExecuteScript (specPreview query) script))) ∧
    preview (some "YES") = true ∧ preview (some "true") = true ∧
    preview (some "1") = true ∧ preview (some "0") = false ∧ preview none = false := by
  refine ⟨?_, ?_, by decide, by decide, by decide, by decide, by decide⟩
  · cases query with
    | none => simp [preview]
    | some value =>
      rw [preview_some_iff]
      simp [truthy]
  · intro Script Tx ae ExecuteScript script
    rw [PostScript_some, preview_eq_specPreview]

/-! ## Proofs, part 2 -/

/-- Claim C5: whatever the driver state, the failures of the backend and the value
of create, GetStore("_system", create) and DeleteStore("_system") return their
reserved-name error and leave the whole backend state as it was: catalog,
partitions, and the log of backend calls. -/
theorem reserved_name_rejected (f : Faults) (create : Bool) (s : Backend) :
    Driver.GetStore f "_system" create s = (.error "reserved name", s) ∧
    Driver.DeleteStore f "_system" s = (some "cannot delete system schema", s) := by
  constructor
  · simp [Driver.GetStore, SystemSchema]
  · simp [Driver.DeleteStore, SystemSchema]

/-- Claim C6 fails on the code: on a backend with an empty catalog and no failing
step, GetStore("foo", create=false) does not answer not-found. It calls
db.Schema, Register and schema.Initialize, and returns a store with created =
true, leaving a catalog row and a partition for "foo". -/
theorem GetStore_create_false_registers :
    Driver.GetStore noFaults "foo" false Backend.empty =
      (.ok (⟨⟨"foo"⟩⟩, true),
        { ledgers := ["foo"]
          partitions := ["foo"]
          calls := [.selectLedger "foo", .dbSchema "foo", .insertLedger "foo",
            .schemaInitialize "foo"] }) := by
  rfl

/-- Claim C7: for a name other than "_system", DeleteStore calls the backend in the
order db.Schema, schema.Delete, DELETE of the catalog row, stopping at the first
failure. When db.Schema or schema.Delete fails it returns that error, the DELETE
statement is not sent and the catalog is unchanged. When no step fails it returns
nil, having removed the partition of name and then the catalog row of name, and
nothing else. When only the DELETE statement fails it returns that error with the
partition of name removed and the catalog unchanged. The catalog changes only if
the partition has been deleted. -/
theorem DeleteStore_partition_first (f : Faults) (name : String) (s : Backend)
    (hname : name ≠ "_system") :
    (∀ e, f.dbSchema = some e →
      (Driver.DeleteStore f name s).1 = some e ∧
      (Driver.DeleteStore f name s).2.ledgers = s.ledgers ∧
      (Driver.DeleteStore f name s).2.calls = s.calls ++ [.dbSchema name]) ∧
    (∀ e, f.dbSchema = none → f.schemaDelete = some e →
      (Driver.DeleteStore f name s).1 = some e ∧
      (Driver.DeleteStore f name s).2.ledgers = s.ledgers ∧
      (Driver.DeleteStore f name s).2.calls =
        s.calls ++ [.dbSchema name, .schemaDelete name]) ∧
    (∃ l, (Driver.DeleteStore f name s).2.calls = s.calls ++ l ∧
      l <+: [.dbSchema name, .schemaDelete name, .deleteLedger name]) ∧
    ((Driver.DeleteStore f name s).2.ledgers ≠ s.ledgers →
      name ∉ (Driver.DeleteStore f name s).2.partitions) ∧
    (f.dbSchema = none → f.schemaDelete = none → f.deleteLedger = none →
      (Driver.DeleteStore f name s).1 = none ∧
      (Driver.DeleteStore f name s).2.partitions = s.partitions.filter (fun p => p ≠ name) ∧
      (Driver.DeleteStore f name s).2.ledgers = s.ledgers.filter (fun l => l ≠ name) ∧
      name ∉ (Driver.DeleteStore f name s).2.partitions ∧
      name ∉ (Driver.DeleteStore f name s).2.ledgers ∧
      (Driver.DeleteStore f name s).2.calls =
        s.calls ++ [.dbSchema name, .schemaDelete name, .deleteLedger name]) ∧
    (∀ e, f.dbSchema = none → f.schemaDelete = none → f.deleteLedger = some e →
      (Driver.DeleteStore f name s).1 = some e ∧
      (Driver.DeleteStore f name s).2.partitions = s.partitions.filter (fun p => p ≠ name) ∧
      (Driver.DeleteStore f name s).2.ledgers = s.ledgers ∧
      (Driver.DeleteStore f name s).2.calls =
        s.calls ++ [.dbSchema name, .schemaDelete name, .deleteLedger name]) ∧
    (∀ e, f.dbSchema = some e →
      (Driver.DeleteStore f name s).2.partitions = s.partitions) := by
  have hsys : ¬ SystemSchema = name := fun h => hname (by rw [← h]; rfl)
  rcases f with ⟨sel, dbs, ins, ra, ini, ns, sd, dl⟩
  refine ⟨?_, ?_, ?_, ?_, ?_, ?_, ?_⟩
  · intro e he
    simp only at he
    subst he
    simp [Driver.DeleteStore, hsys, DB.Schema, Backend.log]
  · intro e h1 h2
    simp only at h1 h2
    subst h1; subst h2
    simp [Driver.DeleteStore, hsys, DB.Schema, Schema.Delete, Backend.log]
  · cases dbs with
    | some e =>
      exact ⟨[.dbSchema name], by simp [Driver.DeleteStore, hsys, DB.Schema, Backend.log],
        by simp [List.prefix_cons_inj]⟩
    | none =>
      cases sd with
      | some e =>
        exact ⟨[.dbSchema name, .schemaDelete name],
          by simp [Driver.DeleteStore, hsys, DB.Schema, Schema.Delete, Backend.log],
          by simp [List.prefix_cons_inj]⟩
      | none =>
        refine ⟨[.dbSchema name, .schemaDelete name, .deleteLedger name], ?_,
          List.prefix_refl _⟩
        cases dl <;>
          simp [Driver.DeleteStore, hsys, DB.Schema, Schema.Delete, ExecContextDelete,
            Backend.log]
  · cases dbs <;> cases sd <;> cases dl <;>
      simp [Driver.DeleteStore, hsys, DB.Schema, Schema.Delete, ExecContextDelete,
        Backend.log]
  · intro h1 h2 h3
    simp only at h1 h2 h3
    subst h1; subst h2; subst h3
    simp [Driver.DeleteStore, hsys, DB.Schema, Schema.Delete, ExecContextDelete,
      Backend.log, List.mem_filter]
  · intro e h1 h2 h3
    simp only at h1 h2 h3
    subst h1; subst h2; subst h3
    simp [Driver.DeleteStore, hsys, DB.Schema, Schema.Delete, ExecContextDelete,
      Backend.log]
  · intro e he
    simp only at he
    subst he
    simp [Driver.DeleteStore, hsys, DB.Schema, Backend.log]

theorem DeleteStore_partition_first_witness :
    "foo" ≠ "_system" ∧
    ((Driver.DeleteStore { noFaults with schemaDelete := some "permission denied" } "foo"
        ⟨["foo"], ["foo"], []⟩).1 = some "permission denied" ∧
     (Driver.DeleteStore { noFaults with schemaDelete := some "permission denied" } "foo"
        ⟨["foo"], ["foo"], []⟩).2.ledgers = ["foo"] ∧
     (Driver.DeleteStore { noFaults with schemaDelete := some "permission denied" } "foo"
        ⟨["foo"], ["foo"], []⟩).2.calls = [] ++ [.dbSchema "foo", .schemaDelete "foo"]) ∧
    ((Driver.DeleteStore noFaults "foo" ⟨["bar", "foo"], ["foo", "bar"], []⟩).1 = none ∧
     (Driver.DeleteStore noFaults "foo" ⟨["bar", "foo"], ["foo", "bar"], []⟩).2.partitions =
        ["foo", "bar"].filter (fun p => p ≠ "foo") ∧
     (Driver.DeleteStore noFaults "foo" ⟨["bar", "foo"], ["foo", "bar"], []⟩).2.ledgers =
        ["bar", "foo"].filter (fun l => l ≠ "foo") ∧
     "foo" ∉ (Driver.DeleteStore noFaults "foo" ⟨["bar", "foo"], ["foo", "bar"], []⟩).2.partitions ∧
     "foo" ∉ (Driver.DeleteStore noFaults "foo" ⟨["bar", "foo"], ["foo", "bar"], []⟩).2.ledgers ∧
     (Driver.DeleteStore noFaults "foo" ⟨["bar", "foo"], ["foo", "bar"], []⟩).2.calls =
        [] ++ [.dbSchema "foo", .schemaDelete "foo", .deleteLedger "foo"]) :=
  ⟨by decide,
    (DeleteStore_partition_first { noFaults with schemaDelete := some "permission denied" }
      "foo" ⟨["foo"], ["foo"], []⟩ (by decide)).2.1 "permission denied" rfl rfl,
    (DeleteStore_partition_first noFaults "foo" ⟨["bar", "foo"], ["foo", "bar"], []⟩
      (by decide)).2.2.2.2.1 rfl rfl rfl⟩

/-- The effect of `Register` on the backend, by cases on the failing step. -/
theorem Register_eq (f : Faults) (name : String) (t : Backend) :
    Driver.Register f name t =
      match f.insertLedger with
      | some err => (.error err, t.log (.insertLedger name))
      | none =>
        (match f.rowsAffected with
          | some err => .error err
          | none => .ok (decide (name ∉ t.ledgers)),
         { (t.log (.insertLedger name)) with
           ledgers := if name ∈ t.ledgers then t.ledgers else t.ledgers ++ [name] }) := by
  rcases f with ⟨sel, dbs, ins, ra, ini, ns, sd, dl⟩
  cases ins <;> cases ra <;> by_cases hm : name ∈ t.ledgers <;>
    simp [Driver.Register, ExecContextInsert, hm]

/-- Claim C8: starting from a catalog without a row for name, two successive
successful calls of Register(name) leave exactly one row for name, the first
returns true and the second false; a successful call returns true exactly when
it inserted the row; and Register fails only when the statement or RowsAffected
fails, never because the row is already there. -/
theorem Register_idempotent (f1 f2 : Faults) (name : String) (s : Backend) (b1 b2 : Bool)
    (hrow : name ∉ s.ledgers)
    (h1 : (Driver.Register f1 name s).1 = .ok b1)
    (h2 : (Driver.Register f2 name (Driver.Register f1 name s).2).1 = .ok b2) :
    b1 = true ∧ b2 = false ∧
    (Driver.Register f2 name (Driver.Register f1 name s).2).2.ledgers.count name = 1 ∧
    (∀ (f : Faults) (t : Backend) (b : Bool), (Driver.Register f name t).1 = .ok b →
      (b = true ↔ name ∉ t.ledgers) ∧
      (Driver.Register f name t).2.ledgers = if b then t.ledgers ++ [name] else t.ledgers) ∧
    (∀ (f : Faults) (t : Backend) (e : Error), (Driver.Register f name t).1 = .error e →
      f.insertLedger = some e ∨ f.rowsAffected = some e) := by
  rcases f1 with ⟨sel1, dbs1, ins1, ra1, ini1, ns1, sd1, dl1⟩
  rcases f2 with ⟨sel2, dbs2, ins2, ra2, ini2, ns2, sd2, dl2⟩
  simp only [Register_eq] at h1 h2 ⊢
  have hcount : List.count name (s.ledgers ++ [name]) = 1 := by
    rw [List.count_append, List.count_eq_zero_of_not_mem hrow]
    simp
  refine ⟨?_, ?_, ?_, ?_, ?_⟩
  · cases ins1 <;> cases ra1 <;> simp_all
  · cases ins1 <;> cases ra1 <;> cases ins2 <;> cases ra2 <;> simp_all [Backend.log]
  · cases ins1 <;> cases ra1 <;> cases ins2 <;> cases ra2 <;> simp_all [Backend.log]
  · intro f t b hb
    rcases f with ⟨sel, dbs, ins, ra, ini, ns, sd, dl⟩
    cases ins <;> cases ra <;> by_cases hm : name ∈ t.ledgers <;>
      simp_all [Backend.log]
  · intro f t e he
    rcases f with ⟨sel, dbs, ins, ra, ini, ns, sd, dl⟩
    cases ins <;> cases ra <;> simp_all

theorem Register_idempotent_witness :
    (Driver.Register noFaults "foo" Backend.empty).1 = .ok true ∧
    (Driver.Register noFaults "foo" (Driver.Register noFaults "foo" Backend.empty).2).1 =
      .ok false ∧
    (Driver.Register noFaults "foo"
      (Driver.Register noFaults "foo" Backend.empty).2).2.ledgers.count "foo" = 1 :=
  ⟨rfl, rfl,
    (Register_idempotent noFaults noFaults "foo" Backend.empty true false
      (by decide) rfl rfl).2.2.1⟩

/-- Claim C9 fails on the code: on an empty backend where no step fails,
GetStore("foo", create=true) succeeds, DeleteStore("foo") succeeds, the catalog
row and the partition of "foo" are then gone, and yet the existence check
returns true. -/
theorem exists_true_after_delete :
    (Driver.GetStore noFaults "foo" true Backend.empty).1 = .ok (⟨⟨"foo"⟩⟩, true) ∧
    (Driver.DeleteStore noFaults "foo"
      (Driver.GetStore noFaults "foo" true Backend.empty).2).1 = none ∧
    (Driver.DeleteStore noFaults "foo"
      (Driver.GetStore noFaults "foo" true Backend.empty).2).2.ledgers = [] ∧
    (Driver.DeleteStore noFaults "foo"
      (Driver.GetStore noFaults "foo" true Backend.empty).2).2.partitions = [] ∧
    (Driver.exists noFaults "foo"
      (Driver.DeleteStore noFaults "foo"
        (Driver.GetStore noFaults "foo" true Backend.empty).2).2).1 = .ok true :=
  ⟨rfl, rfl, rfl, rfl, rfl⟩

/-- Claim C10 fails as stated: on an empty backend where schema.Initialize fails,
GetStore("foo", create=true) returns that error and leaves the catalog row for
"foo" that Register inserted, with no partition for it. -/
theorem GetStore_initialize_failure_keeps_row :
    Driver.GetStore { noFaults with schemaInitialize := some "disk full" } "foo" true
        Backend.empty =
      (.error "disk full",
        { ledgers := ["foo"]
          partitions := []
          calls := [.selectLedger "foo", .dbSchema "foo", .insertLedger "foo",
            .schemaInitialize "foo"] }) := by
  rfl

/-- Claim C10, as amended: GetStore either returns a store, and then the store is
bound to name and the catalog row and the partition of name both exist, or
returns an error. When the error comes from the reserved-name check, the
not-found check, db.Schema or the insert statement (none of RowsAffected,
schema.Initialize and NewStore fails), catalog and partitions are unchanged. When
create is true and the error comes after db.Schema and the insert statement
succeeded, the catalog row for name stays in the catalog: there is no rollback.
For a name other than "_system", a following GetStore in which no step fails,
with create true or with the row of name present, returns a store with row and
partition both present. -/
theorem GetStore_no_rollback (f : Faults) (name : String) (create : Bool) (s : Backend) :
    (∀ store created, (Driver.GetStore f name create s).1 = .ok (store, created) →
      store = ⟨⟨name⟩⟩ ∧
      name ∈ (Driver.GetStore f name create s).2.ledgers ∧
      name ∈ (Driver.GetStore f name create s).2.partitions) ∧
    (∀ e, (Driver.GetStore f name create s).1 = .error e →
      f.rowsAffected = none → f.schemaInitialize = none → f.newStore = none →
      (Driver.GetStore f name create s).2.ledgers = s.ledgers ∧
      (Driver.GetStore f name create s).2.partitions = s.partitions) ∧
    (∀ e, (Driver.GetStore f name create s).1 = .error e →
      name ≠ "_system" → create = true →
      f.dbSchema = none → f.insertLedger = none →
      name ∈ (Driver.GetStore f name create s).2.ledgers) ∧
    (name ≠ "_system" → ∀ t : Backend, create = true ∨ name ∈ t.ledgers → ∃ created,
      (Driver.GetStore noFaults name create t).1 = .ok (⟨⟨name⟩⟩, created) ∧
      name ∈ (Driver.GetStore noFaults name create t).2.ledgers ∧
      name ∈ (Driver.GetStore noFaults name create t).2.partitions) := by
  rcases f with ⟨sel, dbs, ins, ra, ini, ns, sd, dl⟩
  refine ⟨?_, ?_, ?_, ?_⟩
  · intro store created h
    by_cases hsys : name = SystemSchema
    · simp [Driver.GetStore, hsys] at h
    · revert h
      cases sel <;> cases create <;> cases dbs <;> cases ins <;> cases ra <;> cases ini <;>
        cases ns <;> by_cases hm : name ∈ s.ledgers <;> by_cases hp : name ∈ s.partitions <;>
        simp [Driver.GetStore, hsys, Driver.exists, QueryRowContext, Row.Err, DB.Schema,
          Register_eq, Schema.Initialize, NewStore, Backend.log, hm, hp] <;>
        intro h1 _ <;> exact h1.symm
  · intro e h hra hini hns
    simp only at hra hini hns
    subst hra; subst hini; subst hns
    by_cases hsys : name = SystemSchema
    · simp [Driver.GetStore, hsys]
    · revert h
      cases sel <;> cases create <;> cases dbs <;> cases ins <;>
        simp [Driver.GetStore, hsys, Driver.exists, QueryRowContext, Row.Err, DB.Schema,
          Register_eq, Schema.Initialize, NewStore, Backend.log]
  · intro e h hname hcreate hdbs hins
    simp only at hdbs hins
    subst hdbs; subst hins; subst hcreate
    have hsys : ¬ name = SystemSchema := hname
    cases sel <;> cases ra <;> cases ini <;> cases ns <;>
      by_cases hm : name ∈ s.ledgers <;>
      simp_all [Driver.GetStore, Driver.exists, QueryRowContext, Row.Err, DB.Schema,
        Register_eq, Schema.Initialize, NewStore, Backend.log]
  · intro hname t _
    have hsys : ¬ name = SystemSchema := hname
    by_cases hm : name ∈ t.ledgers <;> by_cases hp : name ∈ t.partitions <;>
      simp [Driver.GetStore, hsys, Driver.exists, QueryRowContext, Row.Err, DB.Schema,
        Register_eq, Schema.Initialize, NewStore, Backend.log, noFaults, hm, hp]

theorem GetStore_no_rollback_witness :
    (Driver.GetStore { noFaults with newStore := some "cannot build store" } "foo" true
        Backend.empty).1 = .error "cannot build store" ∧
    "foo" ∈ (Driver.GetStore { noFaults with newStore := some "cannot build store" } "foo" true
        Backend.empty).2.ledgers ∧
    ∃ created,
      (Driver.GetStore noFaults "foo" true
        (Driver.GetStore { noFaults with newStore := some "cannot build store" } "foo" true
          Backend.empty).2).1 = .ok (⟨⟨"foo"⟩⟩, created) ∧
      "foo" ∈ (Driver.GetStore noFaults "foo" true
        (Driver.GetStore { noFaults with newStore := some "cannot build store" } "foo" true
          Backend.empty).2).2.ledgers ∧
      "foo" ∈ (Driver.GetStore noFaults "foo" true
        (Driver.GetStore { noFaults with newStore := some "cannot build store" } "foo" true
          Backend.empty).2).2.partitions :=
  ⟨rfl,
    (GetStore_no_rollback { noFaults with newStore := some "cannot build store" } "foo" true
      Backend.empty).2.2.1 "cannot build store" rfl (by decide) rfl rfl rfl,
    (GetStore_no_rollback { noFaults with newStore := some "cannot build store" } "foo" true
      Backend.empty).2.2.2 (by decide) _ (Or.inl rfl)⟩

end Ledger
